import Mathlib

/-
Shallow embedding of the Cassandra controllers of provider-sql:
the identifier-quoting helper and connection-detail assembly from
pkg/clients/cassandra/cassandra.go, and the Observe/Create/Update/Delete
logic of the Keyspace, Role, Grant and Database controllers.

The store executor is modelled as a function from a statement string to
an Except result; controller operations that loop over statements are
modelled by an explicit recursion over the list of statements they issue,
wrapping the first failure with the controller's error label exactly as
the Go code wraps it (label ++ ": " ++ message).  Go map iteration order,
which is unspecified, is modelled by passing the iteration order of the
desired-permission set as an explicit list.
-/

namespace ProviderSql

/-- Double every double-quote character in a character list: the effect of
strings.ReplaceAll(id, quote, quote-quote) for the one-character pattern. -/
def doubleQuotes : List Char → List Char
  | [] => []
  | c :: cs => if c = '"' then '"' :: '"' :: doubleQuotes cs else c :: doubleQuotes cs

/-- QuoteIdentifier from pkg/clients/cassandra/cassandra.go: wrap in double
quotes, doubling every embedded double-quote character. -/
def QuoteIdentifier (id : String) : String :=
  "\"" ++ String.mk (doubleQuotes id.data) ++ "\""

/-- Result of a reconciliation observation (managed.ExternalObservation,
restricted to the three fields the controllers set). -/
structure ExternalObservation where
  ResourceExists : Bool
  ResourceLateInitialized : Bool
  ResourceUpToDate : Bool
deriving DecidableEq, Repr

/-- Connection metadata held by the CassandraDB client handle. -/
structure CassandraDB where
  endpoint : String
  port : String
deriving DecidableEq, Repr

/-- The connection-details map emitted on Role creation (the four keys of
managed.ConnectionDetails written by GetConnectionDetails). -/
structure ConnectionDetails where
  username : String
  password : String
  endpoint : String
  port : String
deriving DecidableEq, Repr

/-- GetConnectionDetails from pkg/clients/cassandra/cassandra.go: pure data
assembly of the username/password with the handle's endpoint and port. -/
def GetConnectionDetails (db : CassandraDB) (username password : String) : ConnectionDetails :=
  { username := username, password := password, endpoint := db.endpoint, port := db.port }

/-- A statement executor: Exec(statement) -> error, modelled as Except. -/
def Executor : Type := String → Except String Unit

/-- errGrantCreate in the grant controller. -/
def errGrantCreate : String := "cannot create grant"

/-- errGrantDelete in the grant controller. -/
def errGrantDelete : String := "cannot delete grant"

/-- errGrantObserve in the grant controller. -/
def errGrantObserve : String := "cannot observe grant"

/-- errSelectKeyspace in the keyspace controller. -/
def errSelectKeyspace : String := "cannot select keyspace"

/-- errCreateKeyspace in the keyspace controller. -/
def errCreateKeyspace : String := "cannot create keyspace"

/-- errDropKeyspace in the keyspace controller. -/
def errDropKeyspace : String := "cannot drop keyspace"

/-- errSelectRole in the role controller. -/
def errSelectRole : String := "cannot select role"

/-- errCreateRole in the role controller. -/
def errCreateRole : String := "cannot create role"

/-- errUpdateRole in the role controller. -/
def errUpdateRole : String := "cannot update role"

/-- errDropRole in the role controller. -/
def errDropRole : String := "cannot drop role"

/-- errCreateDB in the database controller. -/
def errCreateDB : String := "cannot create keyspace"

/-- errDropDB in the database controller. -/
def errDropDB : String := "cannot drop keyspace"

/-- Run a list of statements in order through the executor, stopping at the
first failure and wrapping its message with the given label, exactly as the
per-privilege loops in the grant controller do with errors.Wrap. -/
def execLoop (exec : Executor) (label : String) : List String → Except String Unit
  | [] => Except.ok ()
  | q :: qs =>
    match exec q with
    | Except.ok _ => execLoop exec label qs
    | Except.error e => Except.error (label ++ ": " ++ e)

namespace Grant

/-- replaceUnderscoreWithSpace from the grant controller: normalize each
privilege token by replacing underscores with spaces
(strings.ReplaceAll with the one-character pattern is a character map). -/
def replaceUnderscoreWithSpace (privileges : List String) : List String :=
  privileges.map (fun p =>
    String.mk (p.data.map (fun c => if c = '_' then ' ' else c)))

/-- The GRANT statement built in the grant controller's Create and Update. -/
def grantStmt (privilege keyspace role : String) : String :=
  "GRANT " ++ privilege ++ " ON KEYSPACE " ++ QuoteIdentifier keyspace ++
    " TO " ++ QuoteIdentifier role

/-- The REVOKE statement built in the grant controller's Delete. -/
def revokeStmt (privilege keyspace role : String) : String :=
  "REVOKE " ++ privilege ++ " ON KEYSPACE " ++ QuoteIdentifier keyspace ++
    " FROM " ++ QuoteIdentifier role

/-- The permissions query built in the grant controller's Observe: the
keyspace is interpolated verbatim into the resource literal. -/
def observeQuery (keyspace : String) : String :=
  "SELECT permissions FROM system_auth.role_permissions WHERE role = ? AND resource = \x27data/" ++
    keyspace ++ "\x27"

/-- The loop over the desired-permission set in the grant controller's
Observe: visits the desired permissions in the given iteration order; a
permission missing from the observed set clears upToDate and breaks out of
the loop, a present permission marks the resource as existing.  Returns
(upToDate, resourceExists). -/
def observeLoop (observedPermissions : List String) :
    List String → Bool → Bool × Bool
  | [], resourceExists => (true, resourceExists)
  | p :: rest, resourceExists =>
    if observedPermissions.contains p then observeLoop observedPermissions rest true
    else (false, resourceExists)

/-- The grant controller's Observe after a successful query: rows is the
list of permission lists returned by the query (their union is the observed
set), desiredIter is the iteration order of the desired-permission map
(each distinct normalized privilege once, in unspecified order). -/
def observe (rows : List (List String)) (desiredIter : List String) : ExternalObservation :=
  let r := observeLoop rows.flatten desiredIter false
  { ResourceExists := r.2, ResourceLateInitialized := false, ResourceUpToDate := r.1 }

/-- The statements issued by the grant controller's Create. -/
def createStmts (role keyspace : String) (privileges : List String) : List String :=
  (replaceUnderscoreWithSpace privileges).map (fun p => grantStmt p keyspace role)

/-- The grant controller's Create: one GRANT per desired privilege, first
failure wrapped with errGrantCreate. -/
def create (exec : Executor) (role keyspace : String) (privileges : List String) :
    Except String Unit :=
  execLoop exec errGrantCreate
    ((replaceUnderscoreWithSpace privileges).map (fun p => grantStmt p keyspace role))

/-- The grant controller's Update: one GRANT per desired privilege, first
failure wrapped with errGrantCreate (the create label appears verbatim in
the Update body of the source). -/
def update (exec : Executor) (role keyspace : String) (privileges : List String) :
    Except String Unit :=
  execLoop exec errGrantCreate
    ((replaceUnderscoreWithSpace privileges).map (fun p => grantStmt p keyspace role))

/-- The grant controller's Delete: one REVOKE per desired privilege, first
failure wrapped with errGrantDelete. -/
def deleteOp (exec : Executor) (role keyspace : String) (privileges : List String) :
    Except String Unit :=
  execLoop exec errGrantDelete
    ((replaceUnderscoreWithSpace privileges).map (fun p => revokeStmt p keyspace role))

end Grant

namespace Keyspace

/-- KeyspaceParameters: the three optional desired/observed fields of the
Keyspace kind (pointer fields in Go become Option). -/
structure KeyspaceParameters where
  ReplicationClass : Option String
  ReplicationFactor : Option Int
  DurableWrites : Option Bool
deriving DecidableEq, Repr

/-- defaultStrategy in the keyspace controller. -/
def defaultStrategy : String := "SimpleStrategy"

/-- defaultReplicas in the keyspace controller. -/
def defaultReplicas : Int := 1

/-- One row of the keyspace Observe query: the replication map and the
durable_writes flag. -/
structure KeyspaceRow where
  replication : List (String × String)
  durable_writes : Bool
deriving DecidableEq, Repr

/-- strconv.Atoi with the error ignored, as the keyspace controller does:
a non-numeric string leaves the integer at its zero value. -/
def atoiOrZero (s : String) : Int :=
  (s.toInt?).getD 0

/-- The Cassandra locator package name stripped from the observed
replication class. -/
def cassandraLocator : String := "org.apache.cassandra.locator."

/-- Strip the Cassandra locator package name from the replication class
when present, as the keyspace controller's Observe does. -/
def stripLocator (rc : String) : String :=
  if cassandraLocator.isPrefixOf rc then rc.drop cassandraLocator.length else rc

/-- upToDate from the keyspace controller: all three fields must be non-nil
on both sides and equal. -/
def upToDate (observed desired : KeyspaceParameters) : Bool :=
  match observed.ReplicationClass, desired.ReplicationClass with
  | some orc, some drc =>
    if orc != drc then false
    else
      match observed.ReplicationFactor, desired.ReplicationFactor with
      | some orf, some drf =>
        if orf != drf then false
        else
          match observed.DurableWrites, desired.DurableWrites with
          | some odw, some ddw => odw == ddw
          | _, _ => false
      | _, _ => false
  | _, _ => false

/-- lateInit from the keyspace controller: each nil desired field is filled
from the observed field and marks the desired state as changed; the
function returns the updated desired state and the changed flag. -/
def lateInit (observed desired : KeyspaceParameters) : KeyspaceParameters × Bool :=
  let p1 :=
    match desired.ReplicationClass with
    | none => (observed.ReplicationClass, true)
    | some v => (some v, false)
  let p2 :=
    match desired.ReplicationFactor with
    | none => (observed.ReplicationFactor, true)
    | some v => (some v, false)
  let p3 :=
    match desired.DurableWrites with
    | none => (observed.DurableWrites, true)
    | some v => (some v, false)
  ({ ReplicationClass := p1.1, ReplicationFactor := p2.1, DurableWrites := p3.1 },
    p1.2 || p2.2 || p3.2)

/-- The keyspace controller's Observe after the query itself succeeded:
qres is the scanned row when one exists.  When the scan yields no row the
controller returns the scan-failure error; when a row exists it parses the
replication map (pointer targets start at their zero values, so observed
fields are always non-nil), late-initializes the desired state, and
compares.  Returns the observation together with the (possibly
late-initialized) desired state. -/
def observe (qres : Option KeyspaceRow) (desired : KeyspaceParameters) :
    Except String (ExternalObservation × KeyspaceParameters) :=
  match qres with
  | none => Except.error "failed to scan keyspace attributes"
  | some row =>
    let observedParams : KeyspaceParameters :=
      { ReplicationClass :=
          some (match row.replication.lookup "class" with
                | some rc => stripLocator rc
                | none => "")
        ReplicationFactor :=
          some (match row.replication.lookup "replication_factor" with
                | some rf => atoiOrZero rf
                | none => 0)
        DurableWrites := some row.durable_writes }
    let li := lateInit observedParams desired
    Except.ok
      ({ ResourceExists := true
         ResourceLateInitialized := li.2
         ResourceUpToDate := upToDate observedParams li.1 }, li.1)

/-- The CREATE KEYSPACE statement built in the keyspace controller's
Create: defaults are substituted only for nil desired fields. -/
def createStmt (name : String) (params : KeyspaceParameters) : String :=
  let strategy :=
    match params.ReplicationClass with
    | some s => s
    | none => defaultStrategy
  let replicationFactor :=
    match params.ReplicationFactor with
    | some n => n
    | none => defaultReplicas
  let durableWrites :=
    match params.DurableWrites with
    | some b => b
    | none => true
  "CREATE KEYSPACE IF NOT EXISTS " ++ QuoteIdentifier name ++
    " WITH replication = \x7b\x27class\x27: \x27" ++ strategy ++
    "\x27, \x27replication_factor\x27: " ++ toString replicationFactor ++
    "\x7d AND durable_writes = " ++ toString durableWrites

/-- The DROP KEYSPACE statement built in the keyspace controller's Delete. -/
def dropStmt (name : String) : String :=
  "DROP KEYSPACE IF EXISTS " ++ QuoteIdentifier name

/-- The keyspace controller's Update: returns success immediately and calls
nothing; the pair records the result and the (empty) list of statements
issued to the executor. -/
def update (_params : KeyspaceParameters) : Except String Unit × List String :=
  (Except.ok (), [])

end Keyspace

namespace Role

/-- RolePrivilege: the two optional flags of the Role kind. -/
structure RolePrivilege where
  SuperUser : Option Bool
  Login : Option Bool
deriving DecidableEq, Repr

/-- RoleParameters wraps the privilege flags as in the Go API type. -/
structure RoleParameters where
  Privileges : RolePrivilege
deriving DecidableEq, Repr

/-- The Go expression `p != nil && *p` used for both flags in the role
statements. -/
def derefOrFalse : Option Bool → Bool
  | none => false
  | some b => b

/-- upToDate from the role controller: both flags must be non-nil on both
sides and equal. -/
def upToDate (observed desired : RoleParameters) : Bool :=
  match observed.Privileges.SuperUser, desired.Privileges.SuperUser with
  | some os, some ds =>
    if os != ds then false
    else
      match observed.Privileges.Login, desired.Privileges.Login with
      | some ol, some dl => ol == dl
      | _, _ => false
  | _, _ => false

/-- lateInit from the role controller: each nil desired flag is filled from
the observed flag and marks the desired state as changed. -/
def lateInit (observed desired : RoleParameters) : RoleParameters × Bool :=
  let p1 :=
    match desired.Privileges.SuperUser with
    | none => (observed.Privileges.SuperUser, true)
    | some v => (some v, false)
  let p2 :=
    match desired.Privileges.Login with
    | none => (observed.Privileges.Login, true)
    | some v => (some v, false)
  ({ Privileges := { SuperUser := p1.1, Login := p2.1 } }, p1.2 || p2.2)

/-- The role controller's Observe after the query itself succeeded: qres is
the scanned (is_superuser, can_login) row when one exists; an absent row is
reported as not existing and not up to date, with no error. -/
def observe (qres : Option (Bool × Bool)) (desired : RoleParameters) :
    Except String (ExternalObservation × RoleParameters) :=
  match qres with
  | none =>
    Except.ok
      ({ ResourceExists := false, ResourceLateInitialized := false,
         ResourceUpToDate := false }, desired)
  | some (isSuperuser, canLogin) =>
    let observed : RoleParameters :=
      { Privileges := { SuperUser := some isSuperuser, Login := some canLogin } }
    let li := lateInit observed desired
    Except.ok
      ({ ResourceExists := true
         ResourceLateInitialized := li.2
         ResourceUpToDate := upToDate observed li.1 }, li.1)

/-- The CREATE ROLE statement built in the role controller's Create: the
generated password is interpolated verbatim into the single-quoted
literal. -/
def createStmt (externalName : String) (params : RoleParameters) (pw : String) : String :=
  "CREATE ROLE IF NOT EXISTS " ++ QuoteIdentifier externalName ++
    " WITH SUPERUSER = " ++ toString (derefOrFalse params.Privileges.SuperUser) ++
    " AND LOGIN = " ++ toString (derefOrFalse params.Privileges.Login) ++
    " AND PASSWORD = \x27" ++ pw ++ "\x27"

/-- The ALTER ROLE statement built in the role controller's Update. -/
def alterStmt (externalName : String) (params : RoleParameters) : String :=
  "ALTER ROLE " ++ QuoteIdentifier externalName ++
    " WITH SUPERUSER = " ++ toString (derefOrFalse params.Privileges.SuperUser) ++
    " AND LOGIN = " ++ toString (derefOrFalse params.Privileges.Login)

/-- The DROP ROLE statement built in the role controller's Delete. -/
def dropStmt (externalName : String) : String :=
  "DROP ROLE IF EXISTS " ++ QuoteIdentifier externalName

/-- The role controller's Create: a password-generation failure aborts
before any statement; otherwise the create statement is issued and, on
success, the connection details are assembled from the external name, the
generated password and the handle's endpoint and port. -/
def create (db : CassandraDB) (exec : Executor) (externalName : String)
    (params : RoleParameters) (pwGen : Except String String) :
    Except String ConnectionDetails :=
  match pwGen with
  | Except.error e => Except.error e
  | Except.ok pw =>
    match exec (createStmt externalName params pw) with
    | Except.error e => Except.error (errCreateRole ++ ": " ++ e)
    | Except.ok _ => Except.ok (GetConnectionDetails db externalName pw)

end Role

namespace Database

/-- The Database managed resource as the database controller sees it: the
external name plus desired-state fields (which its Create never reads). -/
structure DatabaseResource where
  externalName : String
  forProvider : Keyspace.KeyspaceParameters
deriving DecidableEq, Repr

/-- The CREATE KEYSPACE statement built in the database controller's
Create: fixed SimpleStrategy, replication factor 1, no durable_writes
clause, independent of the desired-state fields. -/
def createStmtOf (cr : DatabaseResource) : String :=
  "CREATE KEYSPACE IF NOT EXISTS " ++ QuoteIdentifier cr.externalName ++
    " WITH replication = \x7b\x27class\x27: \x27SimpleStrategy\x27, \x27replication_factor\x27: 1\x7d"

/-- The DROP KEYSPACE statement built in the database controller's Delete. -/
def dropStmtOf (cr : DatabaseResource) : String :=
  "DROP KEYSPACE IF EXISTS " ++ QuoteIdentifier cr.externalName

/-- The database controller's Observe after a successful query: the
resource exists iff the query returned at least one row; absence of a row
is reported as not existing with no error. -/
def observe (numRows : Nat) : ExternalObservation :=
  if numRows > 0 then
    { ResourceExists := true, ResourceLateInitialized := false, ResourceUpToDate := true }
  else
    { ResourceExists := false, ResourceLateInitialized := false, ResourceUpToDate := false }

/-- The database controller's Update: returns success immediately and calls
nothing; the pair records the result and the (empty) list of statements
issued to the executor. -/
def update (_cr : DatabaseResource) : Except String Unit × List String :=
  (Except.ok (), [])

end Database

/-- C1: at observed permission rows [["SELECT"]] and desired-set iteration
order ["MODIFY", "SELECT"] (a legal Go map iteration order of the desired
set obtained from privileges SELECT and MODIFY), the grant controller's
Observe reports ResourceExists = false even though the desired privilege
SELECT is present in the observed set, because the loop breaks on the first
missing privilege before visiting SELECT; the iteration order
["SELECT", "MODIFY"] of the same set yields ResourceExists = true.  This
contradicts the claim that ResourceExists = true iff at least one desired
privilege is observed. -/
theorem grant_observe_exists_depends_on_iteration_order :
    Grant.observe [["SELECT"]] ["MODIFY", "SELECT"]
        = { ResourceExists := false, ResourceLateInitialized := false,
            ResourceUpToDate := false }
      ∧ ["MODIFY", "SELECT"].contains "SELECT" = true
      ∧ [["SELECT"]].flatten.contains "SELECT" = true
      ∧ Grant.observe [["SELECT"]] ["SELECT", "MODIFY"]
        = { ResourceExists := true, ResourceLateInitialized := false,
            ResourceUpToDate := false }
      ∧ Grant.replaceUnderscoreWithSpace ["SELECT", "MODIFY"] = ["SELECT", "MODIFY"] := by
  refine ⟨by decide, by decide, by decide, by decide, by decide⟩

/-- C2: when the keyspace Observe query succeeds but scans no row, the
keyspace controller returns a scan-failure error instead of reporting a
non-existing resource; the database controller's Observe, by contrast,
reports ResourceExists = false with no error when the query returns zero
rows. -/
theorem keyspace_observe_absent_row_is_error (d : Keyspace.KeyspaceParameters) :
    Keyspace.observe none d = Except.error "failed to scan keyspace attributes"
      ∧ Database.observe 0
        = { ResourceExists := false, ResourceLateInitialized := false,
            ResourceUpToDate := false } :=
  ⟨rfl, rfl⟩

/-- C3 counterexample: the keyspace name embedded in the grant controller's
Observe permissions query is interpolated verbatim, not passed through
QuoteIdentifier: already for the plain name "ks" the produced query differs
from the query that would contain the quoted identifier. -/
theorem grant_observe_query_keyspace_unquoted :
    Grant.observeQuery "ks"
      ≠ "SELECT permissions FROM system_auth.role_permissions WHERE role = ? AND resource = \x27data/"
          ++ QuoteIdentifier "ks" ++ "\x27" := by
  decide

/-- C3 amended: every identifier interpolated into the keyspace
create/drop, role create/alter/drop, grant, revoke and database
create statements is passed through QuoteIdentifier, but the keyspace name
embedded in the grant Observe permissions query is interpolated verbatim
without quoting. -/
theorem quoting_applied_to_statements_not_grant_observe_query
    (n ks role pw privilege : String) (kp : Keyspace.KeyspaceParameters)
    (rp : Role.RoleParameters) (cr : Database.DatabaseResource) :
    Keyspace.createStmt n kp
        = "CREATE KEYSPACE IF NOT EXISTS " ++ QuoteIdentifier n
          ++ " WITH replication = \x7b\x27class\x27: \x27"
          ++ kp.ReplicationClass.getD Keyspace.defaultStrategy
          ++ "\x27, \x27replication_factor\x27: "
          ++ toString (kp.ReplicationFactor.getD Keyspace.defaultReplicas)
          ++ "\x7d AND durable_writes = " ++ toString (kp.DurableWrites.getD true)
      ∧ Keyspace.dropStmt n = "DROP KEYSPACE IF EXISTS " ++ QuoteIdentifier n
      ∧ Role.createStmt n rp pw
        = "CREATE ROLE IF NOT EXISTS " ++ QuoteIdentifier n
          ++ " WITH SUPERUSER = " ++ toString (Role.derefOrFalse rp.Privileges.SuperUser)
          ++ " AND LOGIN = " ++ toString (Role.derefOrFalse rp.Privileges.Login)
          ++ " AND PASSWORD = \x27" ++ pw ++ "\x27"
      ∧ Role.alterStmt n rp
        = "ALTER ROLE " ++ QuoteIdentifier n
          ++ " WITH SUPERUSER = " ++ toString (Role.derefOrFalse rp.Privileges.SuperUser)
          ++ " AND LOGIN = " ++ toString (Role.derefOrFalse rp.Privileges.Login)
      ∧ Role.dropStmt n = "DROP ROLE IF EXISTS " ++ QuoteIdentifier n
      ∧ Grant.grantStmt privilege ks role
        = "GRANT " ++ privilege ++ " ON KEYSPACE " ++ QuoteIdentifier ks
          ++ " TO " ++ QuoteIdentifier role
      ∧ Grant.revokeStmt privilege ks role
        = "REVOKE " ++ privilege ++ " ON KEYSPACE " ++ QuoteIdentifier ks
          ++ " FROM " ++ QuoteIdentifier role
      ∧ Database.createStmtOf cr
        = "CREATE KEYSPACE IF NOT EXISTS " ++ QuoteIdentifier cr.externalName
          ++ " WITH replication = \x7b\x27class\x27: \x27SimpleStrategy\x27, \x27replication_factor\x27: 1\x7d"
      ∧ Database.dropStmtOf cr = "DROP KEYSPACE IF EXISTS " ++ QuoteIdentifier cr.externalName
      ∧ Grant.observeQuery ks
        = "SELECT permissions FROM system_auth.role_permissions WHERE role = ? AND resource = \x27data/"
          ++ ks ++ "\x27" := by
  obtain ⟨rc, rf, dw⟩ := kp
  refine ⟨?_, rfl, rfl, rfl, rfl, rfl, rfl, rfl, rfl, rfl⟩
  cases rc <;> cases rf <;> cases dw <;> rfl

/-- C4: the keyspace controller's Create issues exactly the CREATE KEYSPACE
IF NOT EXISTS statement, with the strategy, replication factor and
durable-writes literal taken from the desired field when it is non-nil and
defaulting to SimpleStrategy, 1 and true only when the desired field is
nil. -/
theorem keyspace_create_statement (n : String) (kp : Keyspace.KeyspaceParameters) :
    Keyspace.createStmt n kp
      = "CREATE KEYSPACE IF NOT EXISTS " ++ QuoteIdentifier n
        ++ " WITH replication = \x7b\x27class\x27: \x27"
        ++ kp.ReplicationClass.getD "SimpleStrategy"
        ++ "\x27, \x27replication_factor\x27: "
        ++ toString (kp.ReplicationFactor.getD 1)
        ++ "\x7d AND durable_writes = " ++ toString (kp.DurableWrites.getD true) := by
  obtain ⟨rc, rf, dw⟩ := kp
  cases rc <;> cases rf <;> cases dw <;> rfl

/-- C5: when the password generator produces pw and the statement executor
succeeds, the role controller's Create returns a connection secret whose
username is the role's external name, whose password is pw, and whose
endpoint and port come from the store connection handle. -/
theorem role_create_returns_connection_secret (db : CassandraDB) (u pw : String)
    (rp : Role.RoleParameters) :
    Role.create db (fun _ => Except.ok ()) u rp (Except.ok pw)
      = Except.ok { username := u, password := pw, endpoint := db.endpoint, port := db.port } :=
  rfl

/-- C6 counterexample: a statement failure inside the grant controller's
Update is wrapped with errGrantCreate — the very label used by Create — so
the update error is not distinct from the create error: one concrete
failing executor produces the identical wrapped error on both paths. -/
theorem grant_update_failure_uses_create_label :
    Grant.update (fun _ => Except.error "boom") "role1" "ks1" ["SELECT"]
        = Except.error (errGrantCreate ++ ": boom")
      ∧ Grant.update (fun _ => Except.error "boom") "role1" "ks1" ["SELECT"]
        = Grant.create (fun _ => Except.error "boom") "role1" "ks1" ["SELECT"]
      ∧ errGrantCreate = "cannot create grant" :=
  ⟨rfl, rfl, rfl⟩

/-- C6 amended: statement-execution errors carry operation-specific labels
for the keyspace, role and database controllers and for grant Observe and
Delete, but the grant controller's Update reuses Create's label and is
extensionally identical to Create, so a grant update failure is not
distinguishable from a grant create failure. -/
theorem grant_update_identical_to_create (exec : Executor) (role ks : String)
    (privileges : List String) :
    Grant.update exec role ks privileges = Grant.create exec role ks privileges
      ∧ errGrantObserve ≠ errGrantCreate
      ∧ errGrantDelete ≠ errGrantCreate
      ∧ errSelectKeyspace ≠ errCreateKeyspace
      ∧ errCreateKeyspace ≠ errDropKeyspace
      ∧ errSelectRole ≠ errCreateRole
      ∧ errCreateRole ≠ errUpdateRole
      ∧ errUpdateRole ≠ errDropRole
      ∧ errCreateDB ≠ errDropDB := by
  refine ⟨rfl, by decide, by decide, by decide, by decide, by decide, by decide,
    by decide, by decide⟩

/-- C7: for an observed state with every field non-nil, one call to
lateInit fills each nil desired field from the observed value and leaves
each non-nil desired field untouched (so every field of the result is
non-nil), and a second call to lateInit on the result returns false and
changes no field — for both the keyspace and the role controller. -/
theorem late_init_fills_once_then_fixed (a : String) (b : Int) (c : Bool)
    (kd : Keyspace.KeyspaceParameters) (s l : Bool) (rd : Role.RoleParameters) :
    Keyspace.lateInit ⟨some a, some b, some c⟩ kd
        = (⟨some (kd.ReplicationClass.getD a), some (kd.ReplicationFactor.getD b),
            some (kd.DurableWrites.getD c)⟩,
           kd.ReplicationClass.isNone || kd.ReplicationFactor.isNone
             || kd.DurableWrites.isNone)
      ∧ Keyspace.lateInit ⟨some a, some b, some c⟩
          (Keyspace.lateInit ⟨some a, some b, some c⟩ kd).1
        = ((Keyspace.lateInit ⟨some a, some b, some c⟩ kd).1, false)
      ∧ Role.lateInit ⟨⟨some s, some l⟩⟩ rd
        = (⟨⟨some (rd.Privileges.SuperUser.getD s), some (rd.Privileges.Login.getD l)⟩⟩,
           rd.Privileges.SuperUser.isNone || rd.Privileges.Login.isNone)
      ∧ Role.lateInit ⟨⟨some s, some l⟩⟩ (Role.lateInit ⟨⟨some s, some l⟩⟩ rd).1
        = ((Role.lateInit ⟨⟨some s, some l⟩⟩ rd).1, false) := by
  obtain ⟨rc, rf, dw⟩ := kd
  obtain ⟨⟨su, lo⟩⟩ := rd
  refine ⟨?_, ?_, ?_, ?_⟩ <;>
    cases rc <;> cases rf <;> cases dw <;> cases su <;> cases lo <;> rfl

/-- C8: the keyspace controller's Update (and likewise the database
controller's Update) returns success and issues no statement to the store
executor, for every managed resource. -/
theorem keyspace_update_no_side_effect (kp : Keyspace.KeyspaceParameters)
    (cr : Database.DatabaseResource) :
    Keyspace.update kp = (Except.ok (), [])
      ∧ Database.update cr = (Except.ok (), []) :=
  ⟨rfl, rfl⟩

/-- C9: the database controller's Create issues exactly the fixed
SimpleStrategy / replication-factor-1 statement with no durable_writes
clause, and the statement depends only on the external name, never on the
desired-state fields. -/
theorem database_create_ignores_desired_state (n : String)
    (p q : Keyspace.KeyspaceParameters) :
    Database.createStmtOf { externalName := n, forProvider := p }
        = "CREATE KEYSPACE IF NOT EXISTS " ++ QuoteIdentifier n
          ++ " WITH replication = \x7b\x27class\x27: \x27SimpleStrategy\x27, \x27replication_factor\x27: 1\x7d"
      ∧ Database.createStmtOf { externalName := n, forProvider := p }
        = Database.createStmtOf { externalName := n, forProvider := q }
      ∧ ¬ "durable_writes".data <:+:
          (Database.createStmtOf
            { externalName := "ks",
              forProvider := { ReplicationClass := none, ReplicationFactor := none,
                               DurableWrites := none } }).data := by
  refine ⟨rfl, rfl, by set_option maxRecDepth 4096 in decide⟩

/-- C10: the role controller's Create embeds the generated password
verbatim, with no escaping, into the single-quoted PASSWORD literal of the
statement; in particular a password containing a single quote appears
unescaped inside the literal. -/
theorem role_create_password_verbatim (n pw : String) (rp : Role.RoleParameters) :
    Role.createStmt n rp pw
        = "CREATE ROLE IF NOT EXISTS " ++ QuoteIdentifier n
          ++ " WITH SUPERUSER = " ++ toString (Role.derefOrFalse rp.Privileges.SuperUser)
          ++ " AND LOGIN = " ++ toString (Role.derefOrFalse rp.Privileges.Login)
          ++ " AND PASSWORD = \x27" ++ pw ++ "\x27"
      ∧ "PASSWORD = \x27a\x27b\x27".data <:+
          (Role.createStmt "alice" ⟨⟨none, none⟩⟩ "a\x27b").data := by
  refine ⟨rfl, by decide⟩

end ProviderSql
